import Mathlib

set_option maxRecDepth 40000

/-!
Verification of the Cmel bytecode virtual machine (`src/vm.c`, `src/value.c`,
`src/vm.h`, `src/stdlib_embedded.h`) against its natural-language specification.

Shallow embedding conventions:
* Machine doubles are idealized as exact rationals (`ℚ`).  All concrete
  inputs used in theorems below are dyadic rationals that a 64-bit double
  represents exactly, so the idealization is faithful at those points.
* Interned strings are modelled by their contents (interning makes content
  equality coincide with pointer identity).  Other heap objects are
  modelled by an identity token, matching the C identity comparison.
* The `Error` sentinel value (`VAL_ERROR`) is the `verror` variant.
-/

/-- The tagged value union from `value.h`/`value.c`: `Nil`, `Bool`,
`Number` (double, idealized as `ℚ`), object variants (a string modelled by
its interned contents, any other heap object by its identity), and the
`Error` sentinel. -/
inductive CmelValue where
  | vnil
  | vbool (b : Bool)
  | vnum (q : ℚ)
  | vstr (s : String)
  | vobj (id : Nat)
  | verror
deriving DecidableEq, Repr

/-- `IS_STRING` from `object.h`. -/
def isString : CmelValue → Bool
  | .vstr _ => true
  | _ => false

/-- `IS_NUMBER` from `value.h`. -/
def isNumber : CmelValue → Bool
  | .vnum _ => true
  | _ => false

/-- `isFalsey` from `vm.c:918`: `nil` and `false` are falsey, all else truthy. -/
def isFalsey : CmelValue → Bool
  | .vnil => true
  | .vbool b => !b
  | _ => false

/-- `valuesEqual` from `value.c:81`: different variants never equal;
booleans and numbers structurally; objects by identity (strings are
interned, so identity coincides with content equality); `VAL_ERROR`
falls into the `default` branch, returning `false`. -/
def valuesEqual : CmelValue → CmelValue → Bool
  | .vbool a, .vbool b => decide (a = b)
  | .vnil, .vnil => true
  | .vnum a, .vnum b => decide (a = b)
  | .vstr a, .vstr b => decide (a = b)
  | .vobj a, .vobj b => decide (a = b)
  | _, _ => false

/-- Left-pad a digit string with `'0'` up to length `n`
(the zero padding `snprintf` produces for a fixed `%.*f` precision). -/
def padZeros (s : String) (n : Nat) : String :=
  String.mk (List.replicate (n - s.length) '0') ++ s

/-- Strip trailing `'0'` characters, as `valueToString` does on the
fraction part of its buffer (`value.c:127`). -/
def stripTrailingZeros (s : String) : String :=
  String.mk ((s.data.reverse.dropWhile (fun c => c == '0')).reverse)

/-- The number formatting of `valueToString` (`value.c:100`): whole numbers
print as integers (`%.0f`); other numbers print in fixed point with a
magnitude-dependent precision — 9 decimal places below `0.001`, 6 below `1`,
and otherwise `5 - (int)log10(|num|)` clamped to `[1, 10]` — after which
trailing zeros (and a then-trailing decimal point) are removed.
Idealizations: the double is an exact rational; `num == (long long)num`
becomes `q.den = 1`; `(int)log10` on a value `≥ 1` is the base-10 logarithm
of the integer part; `snprintf` rounding is round-half-up (all concrete
inputs below are tie-free). -/
def numberToString (q : ℚ) : String :=
  if q.den = 1 then toString q.num
  else
    let a := |q|
    let dp : Nat :=
      if a < 1 / 1000 then 9
      else if a < 1 then 6
      else
        let m : Int := Nat.log 10 a.floor.toNat
        (max 1 (min 10 (5 - m))).toNat
    let scaled : Int := round (a * 10 ^ dp)
    let ip := scaled / 10 ^ dp
    let fr := scaled % 10 ^ dp
    let frs := stripTrailingZeros (padZeros (toString fr.toNat) dp)
    (if q < 0 then "-" else "") ++ toString ip ++
      (if frs = "" then "" else "." ++ frs)

/-- `valueToString` from `value.c:92`: bools to `"true"`/`"false"`, nil to
`"nil"`, numbers via `numberToString`, strings to themselves, any other
object to `"[object]"`, and the default branch (hit by `VAL_ERROR`) to
`"[unknown]"`. -/
def valueToString : CmelValue → String
  | .vbool true => "true"
  | .vbool false => "false"
  | .vnil => "nil"
  | .vnum q => numberToString q
  | .vstr s => s
  | .vobj _ => "[object]"
  | .verror => "[unknown]"

/-- Result of one `OP_ADD` dispatch in `run` (`vm.c:1008`). -/
inductive AddResult where
  | ok (v : CmelValue)
  | runtimeErr (msg : String)
deriving DecidableEq, Repr

/-- The `OP_ADD` handler (`vm.c:1008`), with `b` the top of stack
(`peek(0)`) and `a` beneath (`peek(1)`): if either operand is a string,
`concatenateWithConversion` stringifies both via `valueToString` and pushes
the concatenation `a ++ b`; else if both are numbers their sum is pushed;
otherwise a runtime error is raised. -/
def opAdd (a b : CmelValue) : AddResult :=
  if isString b || isString a then
    .ok (.vstr (valueToString a ++ valueToString b))
  else
    match a, b with
    | .vnum x, .vnum y => .ok (.vnum (x + y))
    | _, _ => .runtimeErr "Operands must be two numbers or two strings."

/-- ASCII decimal digit test, as used by `strtod`. -/
def isDigitCh (c : Char) : Bool := 48 ≤ c.toNat && c.toNat ≤ 57

/-- Value of a digit string. -/
def digitsToNat (l : List Char) : Nat :=
  l.foldl (fun acc c => acc * 10 + (c.toNat - 48)) 0

/-- Model of C `strtod(s, NULL)` as called by `numberNative`
(`vm.c:504`): skip leading whitespace, then parse an optional sign, a
run of digits with an optional fraction, and an optional exponent; if no
mantissa digit is found the result is `0` (no conversion).  The model
covers the decimal forms of `strtod`; its hexadecimal / infinity / NaN
forms are outside the embedding, and all concrete strings used below are
plain decimal. -/
def strtodQ (s : String) : ℚ :=
  let cs := s.data.dropWhile
    (fun c => c == ' ' || c == '\t' || c == '\n' || c == '\r')
  let signRest : Bool × List Char :=
    match cs with
    | '-' :: rest => (true, rest)
    | '+' :: rest => (false, rest)
    | _ => (false, cs)
  let neg := signRest.1
  let cs1 := signRest.2
  let intDigits := cs1.takeWhile isDigitCh
  let cs2 := cs1.dropWhile isDigitCh
  let fracRest : List Char × List Char :=
    match cs2 with
    | '.' :: rest => (rest.takeWhile isDigitCh, rest.dropWhile isDigitCh)
    | _ => ([], cs2)
  let fracDigits := fracRest.1
  let cs3 := fracRest.2
  if intDigits.length = 0 && fracDigits.length = 0 then 0
  else
    let mantissa : ℚ :=
      (digitsToNat intDigits : ℚ) +
        (digitsToNat fracDigits : ℚ) / 10 ^ fracDigits.length
    let expVal : Int :=
      match cs3 with
      | 'e' :: rest | 'E' :: rest =>
        let esignRest : Int × List Char :=
          match rest with
          | '-' :: r => (-1, r)
          | '+' :: r => (1, r)
          | _ => (1, rest)
        let eDigits := esignRest.2.takeWhile isDigitCh
        if eDigits.length = 0 then 0 else esignRest.1 * digitsToNat eDigits
      | _ => 0
    let base : ℚ := mantissa * (10 : ℚ) ^ expVal
    if neg then -base else base

/-- `numberNative` from `vm.c:496` applied to its argument `args[0]`:
numbers pass through, `true`/`false` become `1`/`0`, strings go through
`strtod`, and every other type posts a runtime error and returns the
`Error` sentinel (`ERROR_VAL`). -/
def numberNative (v : CmelValue) : CmelValue :=
  match v with
  | .vnum q => .vnum q
  | .vbool b => if b then .vnum 1 else .vnum 0
  | .vstr s => .vnum (strtodQ s)
  | _ => .verror

/-! ## Module loader (`loadModule`, `vm.c:1549`; `OP_IMPORT`/`OP_IMPORT_FROM`,
`vm.c:1457`/`vm.c:1485`)

A module body is abstracted to the sequence of observable operations the
loader semantics depends on: side effects (logged to a trace) and
nested imports (both `OP_IMPORT` and `OP_IMPORT_FROM` call `loadModule`
on the path).  The environment function `fs` gives, per path, the outcome
of reading `p ++ ".cmel"` and compiling it — each of the loader's four
distinct failure paths (`fopen` failure, `malloc` failure, short `fread`,
compile failure, `vm.c:1564-1598`) is a separate outcome, so none of
their error messages is collapsed into another.  The embedded stdlib
table declared in `stdlib_embedded.h` (`EMBEDDED_STDLIB`) is the
environment function `embedded`.  Error messages posted by
`fprintf(stderr, ...)` and `runtimeError` are accumulated in `errors`
(without their trailing newline); each begun module-body execution is
logged as `"run:" ++ path` in `trace`.

Failure paths after `runtimeError` in non-test mode reset the C stack and
continue into code whose behavior is partly undefined (`loadModule`
ignores the result of `call`); the model uniformly treats a failed load as
returning `NULL` (`none`) with the frame released. -/

/-- One observable operation of a compiled module body. -/
inductive BodyOp where
  | effect (tag : String)
  | importM (path : String)
deriving DecidableEq, Repr

/-- Outcome of reading and compiling a module file, with one constructor
per distinct `loadModule` failure path (`vm.c:1564-1598`): `fopen`
returning `NULL`, `malloc` failing, `fread` reading fewer bytes than the
file size, `compile` failing, or the successfully compiled body. -/
inductive ReadResult where
  | openFail
  | memFail
  | readFail
  | compileFail
  | compiled (body : List BodyOp)
deriving DecidableEq, Repr

/-- Loader environment: the filesystem-and-compiler outcome per path, and
the embedded stdlib table from `stdlib_embedded.h`. -/
structure ModuleEnv where
  fs : String → ReadResult
  embedded : String → Option (List BodyOp)

/-- Loader-relevant VM state: the module cache `vm.modules` (path to module
identity, most recent binding first), the allocator counter for fresh
module identities, `vm.frameCount`, the side-effect trace of executed
module bodies, and the posted error messages. -/
structure LoaderState where
  modules : List (String × Nat)
  nextId : Nat
  frameCount : Nat
  trace : List String
  errors : List String
deriving DecidableEq, Repr

/-- `tableGet(&vm.modules, path, ...)`: first binding wins (later
`tableSet` overwrites, modelled by shadowing). -/
def lookupModule (p : String) : List (String × Nat) → Option Nat
  | [] => none
  | (q, id) :: rest => if q = p then some id else lookupModule p rest

/-- `FRAMES_MAX` from `vm.h:8`. -/
def framesMax : Nat := 64

/-- `fprintf(stderr, "Could not open module file \"%s\".\n", fullPath)`
(`vm.c:1566`). -/
def openMsg (p : String) : String :=
  "Could not open module file \"" ++ p ++ ".cmel\"."

/-- `fprintf(stderr, "Not enough memory to read module \"%s\".\n",
fullPath)` (`vm.c:1577`). -/
def memMsg (p : String) : String :=
  "Not enough memory to read module \"" ++ p ++ ".cmel\"."

/-- `fprintf(stderr, "Could not read module \"%s\".\n", fullPath)`
(`vm.c:1585`). -/
def readMsg (p : String) : String :=
  "Could not read module \"" ++ p ++ ".cmel\"."

/-- `fprintf(stderr, "Failed to compile module \"%s\".\n", fullPath)`
(`vm.c:1596`). -/
def compileMsg (p : String) : String :=
  "Failed to compile module \"" ++ p ++ ".cmel\"."

/-- `runtimeError("Failed to load module \"%s\".", path->chars)` raised at
an import opcode when `loadModule` returns `NULL` (`vm.c:1463`). -/
def failMsg (p : String) : String :=
  "Failed to load module \"" ++ p ++ "\"."

/-- Execution of a module body by `run()`: effects are logged, and each
of the import opcodes calls the supplied loader; a `NULL` module aborts
the body with the runtime error of `vm.c:1463`. -/
def runBodyWith (load : String → LoaderState → Option Nat × LoaderState) :
    List BodyOp → LoaderState → Bool × LoaderState
  | [], s => (true, s)
  | BodyOp.effect t :: rest, s =>
      runBodyWith load rest { s with trace := s.trace ++ ["eff:" ++ t] }
  | BodyOp.importM q :: rest, s =>
      match load q s with
      | (none, s1) => (false, { s1 with errors := s1.errors ++ [failMsg q] })
      | (some _, s1) => runBodyWith load rest s1

/-- The state in which a module body starts running: the module identity
has been allocated, `call` has pushed the module closure's frame, and the
body-execution event is logged. -/
def bodyEntryState (p : String) (s : LoaderState) : LoaderState :=
  { s with
    nextId := s.nextId + 1
    frameCount := s.frameCount + 1
    trace := s.trace ++ ["run:" ++ p] }

/-- `loadModule` (`vm.c:1549`): return the cached module if present;
otherwise read `p ++ ".cmel"` from the filesystem and compile it —
failing with the distinct message of whichever step failed (`fopen`,
`malloc`, `fread` or `compile`; the embedded table is never consulted) —
create the module, execute its body in a fresh frame (`call` refuses at
`FRAMES_MAX`, posting `"Stack overflow."`), and cache the module only
after the body completes successfully.  `fuel` bounds the recursion depth
of nested imports; it is an upper bound only, as every run below exhausts
either the cache or the frame limit first. -/
def loadModule (env : ModuleEnv) : Nat → String → LoaderState →
    Option Nat × LoaderState
  | 0, _, s => (none, s)
  | fuel + 1, p, s =>
    match lookupModule p s.modules with
    | some id => (some id, s)
    | none =>
      match env.fs p with
      | .openFail => (none, { s with errors := s.errors ++ [openMsg p] })
      | .memFail => (none, { s with errors := s.errors ++ [memMsg p] })
      | .readFail => (none, { s with errors := s.errors ++ [readMsg p] })
      | .compileFail =>
          (none, { s with errors := s.errors ++ [compileMsg p] })
      | .compiled body =>
        if s.frameCount = framesMax then
          (none, { s with errors := s.errors ++ ["Stack overflow."] })
        else
          match runBodyWith (loadModule env fuel) body
              (bodyEntryState p s) with
          | (false, s2) => (none, { s2 with frameCount := s2.frameCount - 1 })
          | (true, s2) =>
              (some s.nextId, { s2 with
                frameCount := s2.frameCount - 1
                modules := (p, s.nextId) :: s2.modules })

/-- The loader state at the first import of a script: empty cache, the
top-level script occupying one call frame. -/
def initLoader : LoaderState :=
  { modules := [], nextId := 0, frameCount := 1, trace := [], errors := [] }

/-- The error messages `loadModule` can post: the four read-and-compile
failures (file open, out of memory, short read, compile), a failed nested
import, or the frame-limit overflow.  (No circular-import message exists
anywhere in `vm.c`.) -/
def loaderErrorAllowed (e : String) : Prop :=
  (∃ q, e = openMsg q) ∨ (∃ q, e = memMsg q) ∨ (∃ q, e = readMsg q) ∨
    (∃ q, e = compileMsg q) ∨ (∃ q, e = failMsg q) ∨ e = "Stack overflow."

/-- A cyclic pair of modules: `a` imports `b` and `b` imports `a`. -/
def cycEnv : ModuleEnv where
  fs p := if p = "a" then ReadResult.compiled [BodyOp.importM "b"]
          else if p = "b" then ReadResult.compiled [BodyOp.importM "a"]
          else ReadResult.openFail
  embedded _ := none

/-! ## Native calls (`callValue`, `vm.c:747`) -/

/-- A native function: its registered arity (negative marks a variadic
minimum per the spec) and its behavior on the argument window
(`args[0] .. args[argCount-1]` in C order).  A result of `verror` models
returning `ERROR_VAL()` after posting a runtime error. -/
structure NativeDef where
  arity : Int
  fn : List CmelValue → CmelValue

/-- Outcome of `callValue` on a native callee: `ok` is the value stack
(top first) on success (`callValue` returned `true`); `arityErr` is the
wrong-arity runtime error; `nativeErr` is `callValue` returning `false`
because the native returned the `Error` sentinel, without pushing. -/
inductive CallOutcome where
  | ok (stack : List CmelValue)
  | arityErr (msg : String)
  | nativeErr
deriving DecidableEq, Repr

/-- `runtimeError("Expected at least %d arguments but got %d", ...)`
(`vm.c:759` and `vm.c:785`). -/
def arityMsg (arity : Int) (argCount : Nat) : String :=
  "Expected at least " ++ toString arity ++ " arguments but got " ++
    toString argCount

/-- The `OBJ_NATIVE` branch of `callValue` (`vm.c:782`).  The stack is a
list with the top first: `argCount` arguments above the callee.  The
arity check is literally `argCount < arity`; on success the native runs
on the argument window, the arguments and callee are popped, and the
result is pushed unless it is the `Error` sentinel, in which case
`callValue` returns `false` with nothing pushed. -/
def callNativeDirect (n : NativeDef) (argCount : Nat)
    (stack : List CmelValue) : CallOutcome :=
  if (argCount : Int) < n.arity then
    .arityErr (arityMsg n.arity argCount)
  else
    let args := (stack.take argCount).reverse
    let result := n.fn args
    let rest := stack.drop (argCount + 1)
    if result = CmelValue.verror then .nativeErr
    else .ok (result :: rest)

/-- The `OBJ_BOUND_NATIVE` branch of `callValue` (`vm.c:755`).  The
receiver is pushed and counted as one extra argument (so it arrives as the
last entry of the argument window); the arity check is
`argCount + 1 < arity`; and the result is pushed unconditionally — this
branch has no `IS_ERROR` check. -/
def callBoundNative (receiver : CmelValue) (n : NativeDef)
    (argCount0 : Nat) (stack : List CmelValue) : CallOutcome :=
  let argCount := argCount0 + 1
  if (argCount : Int) < n.arity then
    .arityErr (arityMsg n.arity argCount)
  else
    let args := ((receiver :: stack).take argCount).reverse
    let result := n.fn args
    .ok (result :: stack.drop (argCount0 + 1))

/-- The registered `number` native (`defineNative("number", numberNative, 1)`,
`vm.c:647`): arity `1`, reading `args[0]`.  (`headD` models the pointer
read of `args[0]`.) -/
def numberNativeDef : NativeDef where
  arity := 1
  fn args := numberNative (args.headD CmelValue.vnil)

/-- A bound native that fails, behaving like `listRemoveNative`
(`vm.c:148`) on an out-of-bounds index: arity `2`, posts a runtime error
and returns `ERROR_VAL()`. -/
def failingBoundNative : NativeDef where
  arity := 2
  fn _ := CmelValue.verror

/-! ## Open upvalues (`captureUpvalue`, `vm.c:878`; `closeUpvalues`,
`vm.c:902`)

The open-upvalue list is modelled by the list of stack-slot indices of its
entries, in list order (`vm.openUpvalues` threads them by strictly
descending slot address).  The value stack is a function from slot index
to value.  Closing an upvalue copies its slot into its own cell and
removes it from the list; `closeUpvalues` returns the remaining open list
together with the closed upvalues paired with the captured values. -/

/-- The open-upvalue list invariant: strictly descending slot addresses. -/
def sortedDesc (l : List Nat) : Prop :=
  List.Pairwise (fun a b => b < a) l

/-- `captureUpvalue` (`vm.c:878`): walk past entries above `lcl`, reuse an
existing upvalue for the same slot, otherwise insert a new one at the
found position. -/
def captureUpvalue (lcl : Nat) : List Nat → List Nat
  | [] => [lcl]
  | u :: rest =>
    if lcl < u then u :: captureUpvalue lcl rest
    else if u = lcl then u :: rest
    else lcl :: u :: rest

/-- `closeUpvalues(last)` (`vm.c:902`): pop list entries while the head's
slot is `≥ last`, copying each popped slot's stack value into the
upvalue's own cell.  Returns (remaining open list, closed upvalues with
their captured values).  `OP_RETURN` (`vm.c:1296`) calls this with
`frame->slots` — which becomes the new stack top — and `OP_CLOSE_UPVALUE`
(`vm.c:1290`) with `stackTop - 1`, the slot about to be popped. -/
def closeUpvalues (stack : Nat → CmelValue) (last : Nat) :
    List Nat → List Nat × List (Nat × CmelValue)
  | [] => ([], [])
  | u :: rest =>
    if last ≤ u then
      let r := closeUpvalues stack last rest
      (r.1, (u, stack u) :: r.2)
    else (u :: rest, [])

/-! ## Runtime errors and test mode (`runtimeError`, `vm.c:34`) -/

/-- The VM state observable by `runtimeError`: the test-mode flag and
failure list (`vm.h:48`), the value stack, the frame count, and the lines
printed to stderr. -/
structure TestVM where
  testMode : Bool
  testFailures : Option (List String)
  stack : List CmelValue
  frameCount : Nat
  stderrLines : List String
deriving DecidableEq, Repr

/-- `resetStack` (`vm.c:28`). -/
def resetStackM (s : TestVM) : TestVM :=
  { s with stack := [], frameCount := 0 }

/-- `runtimeError` (`vm.c:34`): in test mode the formatted message is
appended to the failure list (when one exists) and the function returns at
once — no stderr output, no stack trace, no stack reset.  Otherwise the
message and one stack-trace line per frame (abstracted here to a marker
line) go to stderr and the stack is reset. -/
def runtimeErrorM (msg : String) (s : TestVM) : TestVM :=
  if s.testMode then
    match s.testFailures with
    | some l => { s with testFailures := some (l ++ [msg]) }
    | none => s
  else
    resetStackM { s with stderrLines :=
      s.stderrLines ++ [msg] ++ List.replicate s.frameCount "[line N] in frame" }

/-- Outcome of one opcode handler in `run`: continue the dispatch loop, or
`return INTERPRET_RUNTIME_ERROR`. -/
inductive StepResult where
  | next (s : TestVM)
  | runtimeErrorHalt (s : TestVM)
deriving DecidableEq, Repr

/-- The complete `OP_ADD` case of `run` (`vm.c:1008`) including its error
path: on a type error the handler calls `runtimeError` and then — in test
mode or not — executes `return INTERPRET_RUNTIME_ERROR`.  The stack holds
`peek(0) = b` at its head.  (A stack with fewer than two values cannot
reach `OP_ADD`; that case is mapped to the same error for totality.) -/
def opAddStep (s : TestVM) : StepResult :=
  match s.stack with
  | b :: a :: rest =>
    match opAdd a b with
    | .ok v => .next { s with stack := v :: rest }
    | .runtimeErr m => .runtimeErrorHalt (runtimeErrorM m s)
  | _ => .runtimeErrorHalt
      (runtimeErrorM "Operands must be two numbers or two strings." s)

/-! ## Lists (`listReverseNative`, `vm.c:293`) -/

/-- The loop of `listReverseNative`: `for (i = count - 1; i >= 0; i--)
appendToList(result, items[i])` — `go n acc` appends
`items[n-1], ..., items[0]` to `acc`. -/
def appendFromBack (items : List CmelValue) : Nat → List CmelValue →
    List CmelValue
  | 0, result => result
  | i + 1, result =>
      appendFromBack items i (result ++ [items.getD i CmelValue.vnil])

/-- `listReverseNative` (`vm.c:293`): build a fresh list by appending the
receiver's elements from last to first; the receiver is not modified (the
model is a pure function of the element list). -/
def listReverseNative (items : List CmelValue) : List CmelValue :=
  appendFromBack items items.length []

/-! ## Concrete environments and states used in witnesses and
counterexamples -/

/-- A one-module environment: `m.cmel` exists with a single side effect. -/
def envW : ModuleEnv where
  fs p := if p = "m" then ReadResult.compiled [BodyOp.effect "hi"]
          else ReadResult.openFail
  embedded _ := none

/-- The loader state after successfully loading `"m"` from `envW`. -/
def c2s : LoaderState :=
  { modules := [("m", 0)], nextId := 1, frameCount := 1,
    trace := ["run:m", "eff:hi"], errors := [] }

/-- An environment with an empty filesystem and empty embedded table. -/
def envNoFs : ModuleEnv where
  fs _ := ReadResult.openFail
  embedded _ := none

/-- An environment where module `sl` exists only in the embedded stdlib
table, not on the filesystem. -/
def envEmb : ModuleEnv where
  fs _ := ReadResult.openFail
  embedded p := if p = "sl" then some [] else none

/-! ## Theorems -/

/-- Helper: `valuesEqual` is reflexive on every value except the `Error`
sentinel (whose comparison falls into the `default` branch of
`valuesEqual` and yields `false`). -/
theorem valuesEqual_refl (v : CmelValue) (h : v ≠ CmelValue.verror) :
    valuesEqual v v = true := by
  cases v <;> simp_all [valuesEqual]

/-- Helper: the backwards-append loop of `listReverseNative` produces the
reversal of the first `n` items. -/
theorem appendFromBack_eq (items : List CmelValue) :
    ∀ (n : Nat) (acc : List CmelValue), n ≤ items.length →
      appendFromBack items n acc = acc ++ (items.take n).reverse := by
  intro n
  induction n with
  | zero => intro acc _; simp [appendFromBack]
  | succ k ih =>
    intro acc h
    have hk : k < items.length := h
    rw [appendFromBack, ih _ (Nat.le_of_lt hk), List.take_succ,
      List.reverse_append]
    simp [List.getElem?_eq_getElem hk,
      List.getD_eq_getElem items CmelValue.vnil hk]

/-- Helper: `listReverseNative` computes list reversal. -/
theorem listReverseNative_eq (l : List CmelValue) :
    listReverseNative l = l.reverse := by
  rw [listReverseNative, appendFromBack_eq l l.length [] le_rfl]
  simp

/-- C1 (amended): for every `OP_ADD`, if at least one operand is a string
then both operands are converted by `valueToString` (bool to
`"true"`/`"false"`, nil to `"nil"`, numbers by the fixed-precision decimal
formatting of `value.c` — not by a shortest round-trippable form) and the
result is the concatenation, so `"x" + v` equals `"x" ++ valueToString v`
for every `v`; if neither operand is a string both must be numbers and the
result is their sum; every other combination raises the runtime error. -/
theorem c1_add_semantics (a b : CmelValue) :
    ((isString a || isString b) = true →
      opAdd a b = AddResult.ok (.vstr (valueToString a ++ valueToString b)))
  ∧ (∀ s v, opAdd (CmelValue.vstr s) v =
      AddResult.ok (.vstr (s ++ valueToString v)))
  ∧ (∀ x y, opAdd (CmelValue.vnum x) (CmelValue.vnum y) =
      AddResult.ok (.vnum (x + y)))
  ∧ ((isString a || isString b) = false → (isNumber a && isNumber b) = false →
      opAdd a b = AddResult.runtimeErr
        "Operands must be two numbers or two strings.") := by
  refine ⟨?_, ?_, ?_, ?_⟩
  · intro h
    have h2 : (isString b || isString a) = true := by
      rw [Bool.or_comm]; exact h
    simp [opAdd, h2]
  · intro s v
    simp [opAdd, isString, valueToString]
  · intro x y
    simp [opAdd, isString]
  · intro h1 h2
    cases a <;> cases b <;> simp_all [opAdd, isString, isNumber]

/-- Witness for `c1_add_semantics` at `nil + "y"`. -/
theorem c1_add_semantics_witness :
    opAdd CmelValue.vnil (CmelValue.vstr "y") =
      AddResult.ok (.vstr (valueToString CmelValue.vnil ++
        valueToString (CmelValue.vstr "y"))) :=
  (c1_add_semantics CmelValue.vnil (CmelValue.vstr "y")).1 (by decide)

/-- C1 counterexample: the double `2⁻²⁰` (exactly representable) is
stringified by `OP_ADD` as `"0.000000954"`, which does not parse back to
`2⁻²⁰` — so the conversion is not a round-trippable decimal form of the
operand, let alone the shortest one. -/
theorem c1_counterexample :
    opAdd (CmelValue.vstr "x") (CmelValue.vnum (1 / 1048576)) =
      AddResult.ok (.vstr "x0.000000954")
  ∧ strtodQ "0.000000954" ≠ (1 / 1048576 : ℚ) := by
  constructor
  · with_unfolding_all decide
  · with_unfolding_all decide

/-- C10: `number(v)` returns `v` for a number, `1`/`0` for `true`/`false`,
the parsed leading numeric value of a string (`0` when the string has no
numeric prefix at all, e.g. `number("abc") = 0`, rather than an error),
and the `Error` sentinel — a posted runtime error — exactly for values of
any other type. -/
theorem c10_number_native :
    (∀ q, numberNative (CmelValue.vnum q) = CmelValue.vnum q)
  ∧ numberNative (CmelValue.vbool true) = CmelValue.vnum 1
  ∧ numberNative (CmelValue.vbool false) = CmelValue.vnum 0
  ∧ (∀ s, numberNative (CmelValue.vstr s) = CmelValue.vnum (strtodQ s))
  ∧ strtodQ "abc" = 0
  ∧ strtodQ "42abc" = 42
  ∧ strtodQ "3.5xyz" = 7 / 2
  ∧ strtodQ "  -2e3" = -2000
  ∧ numberNative CmelValue.vnil = CmelValue.verror
  ∧ (∀ i, numberNative (CmelValue.vobj i) = CmelValue.verror)
  ∧ numberNative CmelValue.verror = CmelValue.verror := by
  refine ⟨fun q => rfl, rfl, rfl, fun s => rfl, by with_unfolding_all decide,
    by with_unfolding_all decide, by with_unfolding_all decide,
    by with_unfolding_all decide, rfl, fun i => rfl, rfl⟩

/-- C9: `list.reverse().reverse()` returns a list with the same elements
in the same order as the original (hence the same length, and elementwise
`valuesEqual` away from the `Error` sentinel, which is never stored in a
reachable list); the receiver itself is untouched, `listReverseNative`
building a fresh list. -/
theorem c9_reverse_involutive (l : List CmelValue) :
    listReverseNative (listReverseNative l) = l
  ∧ (listReverseNative (listReverseNative l)).length = l.length
  ∧ (∀ i, i < l.length → l.getD i CmelValue.vnil ≠ CmelValue.verror →
      valuesEqual ((listReverseNative (listReverseNative l)).getD i
        CmelValue.vnil) (l.getD i CmelValue.vnil) = true) := by
  have h : listReverseNative (listReverseNative l) = l := by
    rw [listReverseNative_eq, listReverseNative_eq, List.reverse_reverse]
  refine ⟨h, by rw [h], ?_⟩
  intro i _ hne
  rw [h]
  exact valuesEqual_refl _ hne

/-- Witness for `c9_reverse_involutive` on a two-element list. -/
theorem c9_reverse_involutive_witness :
    valuesEqual
      ((listReverseNative (listReverseNative
        [CmelValue.vnum 1, CmelValue.vstr "a"])).getD 1 CmelValue.vnil)
      (([CmelValue.vnum 1, CmelValue.vstr "a"] :
        List CmelValue).getD 1 CmelValue.vnil) = true :=
  (c9_reverse_involutive [CmelValue.vnum 1, CmelValue.vstr "a"]).2.2 1
    (by decide) (by decide)

/-- C5 (amended): when a native returns the `Error` sentinel, the direct
`OBJ_NATIVE` call path aborts without pushing a result and the call site
raises a runtime error; but the `OBJ_BOUND_NATIVE` path (`vm.c:755`) has
no such check — the result, the `Error` sentinel included, is pushed
unconditionally and the call reports success, so the sentinel can be left
on the value stack. -/
theorem c5_native_error_handling (n : NativeDef) (argCount : Nat)
    (stack : List CmelValue) :
    (¬ (argCount : Int) < n.arity →
      n.fn ((stack.take argCount).reverse) = CmelValue.verror →
      callNativeDirect n argCount stack = CallOutcome.nativeErr)
  ∧ (∀ recv argCount0, ¬ ((argCount0 + 1 : Nat) : Int) < n.arity →
      callBoundNative recv n argCount0 stack =
        CallOutcome.ok
          (n.fn (((recv :: stack).take (argCount0 + 1)).reverse) ::
            stack.drop (argCount0 + 1))) := by
  constructor
  · intro h1 h2
    simp [callNativeDirect, h1, h2]
  · intro recv argCount0 h1
    simp only [callBoundNative]
    rw [if_neg h1]

/-- Witness for `c5_native_error_handling`: `number(nil)` as a direct
native call aborts with nothing pushed. -/
theorem c5_native_error_handling_witness :
    callNativeDirect numberNativeDef 1 [CmelValue.vnil, CmelValue.vobj 1] =
      CallOutcome.nativeErr :=
  (c5_native_error_handling numberNativeDef 1
    [CmelValue.vnil, CmelValue.vobj 1]).1 (by decide) (by decide)

/-- C5 counterexample: a bound native that fails (like `remove` on a bad
index) has its `Error` sentinel pushed onto the stack and the call
succeeds, contradicting the claim that the sentinel is never left on the
stack and that the call is aborted. -/
theorem c5_counterexample :
    callBoundNative (CmelValue.vobj 0) failingBoundNative 1
      [CmelValue.vnum 5, CmelValue.vobj 0, CmelValue.vnil] =
      CallOutcome.ok [CmelValue.verror, CmelValue.vnil] := by
  with_unfolding_all decide

/-- C8 (amended): the arity check for natives is literally
`argCount < arity` — a wrong-arity error is raised exactly when fewer than
`arity` arguments are supplied, so a native of arity `a ≥ 0` accepts any
surplus arguments, and a native of negative (variadic) arity never fails
the arity check at all (the absolute value of the spec is not taken). -/
theorem c8_native_arity (n : NativeDef) (argCount : Nat)
    (stack : List CmelValue) :
    ((∃ m, callNativeDirect n argCount stack = CallOutcome.arityErr m) ↔
      (argCount : Int) < n.arity)
  ∧ (n.arity < 0 →
      ∀ m, callNativeDirect n argCount stack ≠ CallOutcome.arityErr m) := by
  have hiff : (∃ m, callNativeDirect n argCount stack =
      CallOutcome.arityErr m) ↔ (argCount : Int) < n.arity := by
    constructor
    · rintro ⟨m, hm⟩
      by_contra h
      simp [callNativeDirect, h] at hm
      split at hm <;> simp_all
    · intro h
      exact ⟨arityMsg n.arity argCount, by simp [callNativeDirect, h]⟩
  refine ⟨hiff, fun hneg m hm => ?_⟩
  have hlt := hiff.mp ⟨m, hm⟩
  have hnn : (0 : Int) ≤ (argCount : Int) := Int.natCast_nonneg argCount
  omega

/-- Witness for `c8_native_arity`: a variadic native (arity `-1`, like
`assert`) raises no arity error even with zero arguments. -/
theorem c8_native_arity_witness :
    callNativeDirect { arity := -1, fn := fun _ => CmelValue.vbool true } 0
      [CmelValue.vobj 8] ≠ CallOutcome.arityErr "x" :=
  (c8_native_arity { arity := -1, fn := fun _ => CmelValue.vbool true } 0
    [CmelValue.vobj 8]).2 (by decide) "x"

/-- C8 counterexample: `number(1, 2)` — two arguments against registered
arity `1` — is accepted and answers `1` instead of raising the wrong-arity
error the claim requires; and a variadic native of arity `-1` called with
zero arguments (fewer than `|-1|`) also succeeds instead of erroring. -/
theorem c8_counterexample :
    callNativeDirect numberNativeDef 2
      [CmelValue.vnum 2, CmelValue.vnum 1, CmelValue.vobj 7] =
      CallOutcome.ok [CmelValue.vnum 1]
  ∧ callNativeDirect { arity := -1, fn := fun _ => CmelValue.vbool true } 0
      [CmelValue.vobj 8] = CallOutcome.ok [CmelValue.vbool true] := by
  constructor
  · with_unfolding_all decide
  · decide

/-- C7 (amended): with the test-mode flag set and a failure list present,
`runtimeError` appends the formatted message to the list, prints no stack
trace, does not reset the value stack, and returns to its caller — but an
error raised inside an opcode handler such as `OP_ADD` still makes `run`
return `INTERPRET_RUNTIME_ERROR`; execution continues only when the
raising call site itself proceeds (as the `assert` natives do by returning
a normal value). -/
theorem c7_test_mode (s : TestVM) (msg : String) (l : List String)
    (h1 : s.testMode = true) (h2 : s.testFailures = some l) :
    runtimeErrorM msg s = { s with testFailures := some (l ++ [msg]) }
  ∧ (runtimeErrorM msg s).stack = s.stack
  ∧ (runtimeErrorM msg s).stderrLines = s.stderrLines
  ∧ (runtimeErrorM msg s).frameCount = s.frameCount
  ∧ (∀ a b rest, s.stack = b :: a :: rest →
      opAdd a b = AddResult.runtimeErr msg →
      opAddStep s = StepResult.runtimeErrorHalt
        { s with testFailures := some (l ++ [msg]) }) := by
  have he : runtimeErrorM msg s =
      { s with testFailures := some (l ++ [msg]) } := by
    simp [runtimeErrorM, h1, h2]
  refine ⟨he, by rw [he], by rw [he], by rw [he], ?_⟩
  intro a b rest hs hadd
  simp [opAddStep, hs, hadd, he]

/-- Witness for `c7_test_mode` on a concrete test-mode state. -/
theorem c7_test_mode_witness :
    runtimeErrorM "boom"
      { testMode := true, testFailures := some [], stack := [],
        frameCount := 1, stderrLines := [] } =
      { testMode := true, testFailures := some ["boom"], stack := [],
        frameCount := 1, stderrLines := [] } :=
  (c7_test_mode
    { testMode := true, testFailures := some [], stack := [],
        frameCount := 1, stderrLines := [] }
    "boom" [] rfl rfl).1

/-- C7 counterexample: in test mode, the `OP_ADD` type error appends its
message to the failure list and leaves the stack alone, but the handler
still halts with `INTERPRET_RUNTIME_ERROR` — execution does not continue,
contradicting the claim that control returns to the caller and execution
continues for every runtime error. -/
theorem c7_counterexample :
    opAddStep
      { testMode := true, testFailures := some [],
        stack := [CmelValue.vnil, CmelValue.vbool true], frameCount := 1,
        stderrLines := [] } =
      StepResult.runtimeErrorHalt
        { testMode := true,
          testFailures :=
            some ["Operands must be two numbers or two strings."],
          stack := [CmelValue.vnil, CmelValue.vbool true], frameCount := 1,
          stderrLines := [] } := by decide

/-- Helper: an element of `captureUpvalue lcl l` is `lcl` or one of `l`. -/
theorem captureUpvalue_mem (lcl : Nat) :
    ∀ l x, x ∈ captureUpvalue lcl l → x = lcl ∨ x ∈ l := by
  intro l
  induction l with
  | nil =>
    intro x h
    simp [captureUpvalue] at h
    exact Or.inl h
  | cons u rest ih =>
    intro x h
    simp only [captureUpvalue] at h
    split at h
    · rcases List.mem_cons.mp h with h1 | h2
      · exact Or.inr (h1 ▸ List.mem_cons_self u rest)
      · rcases ih x h2 with h3 | h4
        · exact Or.inl h3
        · exact Or.inr (List.mem_cons_of_mem u h4)
    · split at h
      · exact Or.inr h
      · rcases List.mem_cons.mp h with h1 | h2
        · exact Or.inl h1
        · exact Or.inr h2

/-- Helper: `captureUpvalue` preserves the strictly-descending order of
the open-upvalue list. -/
theorem captureUpvalue_sorted (lcl : Nat) :
    ∀ l, sortedDesc l → sortedDesc (captureUpvalue lcl l) := by
  intro l
  induction l with
  | nil => intro _; simp [captureUpvalue, sortedDesc]
  | cons u rest ih =>
    intro hs
    have hu : ∀ x ∈ rest, x < u := (List.pairwise_cons.mp hs).1
    have hrest : sortedDesc rest := (List.pairwise_cons.mp hs).2
    simp only [captureUpvalue]
    split
    · rename_i hlt
      refine List.pairwise_cons.mpr ⟨?_, ih hrest⟩
      intro x hx
      rcases captureUpvalue_mem lcl rest x hx with h1 | h2
      · exact h1 ▸ hlt
      · exact hu x h2
    · split
      · exact hs
      · rename_i hnlt hne
        have hul : u < lcl := Nat.lt_of_le_of_ne (Nat.not_lt.mp hnlt) hne
        refine List.pairwise_cons.mpr ⟨?_, hs⟩
        intro x hx
        rcases List.mem_cons.mp hx with h1 | h2
        · exact h1 ▸ hul
        · exact Nat.lt_trans (hu x h2) hul

/-- Helper: on a strictly-descending open-upvalue list, `closeUpvalues`
leaves open exactly the upvalues below `last` and closes every upvalue at
or above `last`, capturing its stack value. -/
theorem closeUpvalues_spec (stack : Nat → CmelValue) (last : Nat) :
    ∀ l, sortedDesc l →
      (∀ u ∈ (closeUpvalues stack last l).1, u < last)
    ∧ (∀ u ∈ l, last ≤ u →
        (u, stack u) ∈ (closeUpvalues stack last l).2 ∧
          u ∉ (closeUpvalues stack last l).1) := by
  intro l
  induction l with
  | nil => intro _; simp [closeUpvalues]
  | cons u rest ih =>
    intro hs
    have hu : ∀ x ∈ rest, x < u := (List.pairwise_cons.mp hs).1
    have hrest : sortedDesc rest := (List.pairwise_cons.mp hs).2
    obtain ⟨ih1, ih2⟩ := ih hrest
    simp only [closeUpvalues]
    split
    · rename_i hle
      constructor
      · intro x hx
        exact ih1 x hx
      · intro x hx hlastx
        rcases List.mem_cons.mp hx with h1 | h2
        · subst h1
          refine ⟨List.mem_cons_self _ _, ?_⟩
          intro hmem
          exact absurd (ih1 x hmem) (Nat.not_lt.mpr hlastx)
        · obtain ⟨hin2, hnin⟩ := ih2 x h2 hlastx
          exact ⟨List.mem_cons_of_mem _ hin2, hnin⟩
    · rename_i hnle
      have hult : u < last := Nat.not_le.mp hnle
      constructor
      · intro x hx
        rcases List.mem_cons.mp hx with h1 | h2
        · exact h1 ▸ hult
        · exact Nat.lt_trans (hu x h2) hult
      · intro x hx hlastx
        rcases List.mem_cons.mp hx with h1 | h2
        · exact absurd hlastx (h1 ▸ Nat.not_le.mpr hult)
        · exact absurd hlastx
            (Nat.not_le.mpr (Nat.lt_trans (hu x h2) hult))

/-- C6: after `closeUpvalues(last)` — called by `OP_RETURN` with the
frame's base slot, which becomes the new stack top, and by
`OP_CLOSE_UPVALUE` with the slot being discarded — every upvalue at or
above `last` has been closed with its stack value copied into its own
cell and removed from the open list, and no remaining open upvalue points
at or above `last`; the strictly-descending order this argument relies on
is the list's invariant, preserved by `captureUpvalue`, the only
operation that inserts. -/
theorem c6_upvalues_closed (stack : Nat → CmelValue) (last : Nat)
    (l : List Nat) (h : sortedDesc l) :
    (∀ u ∈ (closeUpvalues stack last l).1, u < last)
  ∧ (∀ u ∈ l, last ≤ u →
      (u, stack u) ∈ (closeUpvalues stack last l).2 ∧
        u ∉ (closeUpvalues stack last l).1)
  ∧ (∀ lcl l2, sortedDesc l2 → sortedDesc (captureUpvalue lcl l2)) :=
  ⟨(closeUpvalues_spec stack last l h).1,
    (closeUpvalues_spec stack last l h).2,
    fun lcl l2 h2 => captureUpvalue_sorted lcl l2 h2⟩

/-- Witness for `c6_upvalues_closed` on the open list `[5, 3, 1]` with
`last = 3`. -/
theorem c6_upvalues_closed_witness :
    (5, (fun i => CmelValue.vnum i) 5) ∈
      (closeUpvalues (fun i => CmelValue.vnum i) 3 [5, 3, 1]).2
  ∧ 5 ∉ (closeUpvalues (fun i => CmelValue.vnum i) 3 [5, 3, 1]).1 :=
  (c6_upvalues_closed (fun i => CmelValue.vnum i) 3 [5, 3, 1]
    (by simp [sortedDesc])).2.1 5 (by decide) (by decide)

/-- Helper: body execution preserves module-cache entries, given that the
loader it re-enters does. -/
theorem runBodyWith_cache (p : String) (id : Nat)
    (load : String → LoaderState → Option Nat × LoaderState)
    (hl : ∀ q s, lookupModule p s.modules = some id →
      lookupModule p ((load q s).2).modules = some id) :
    ∀ ops s, lookupModule p s.modules = some id →
      lookupModule p ((runBodyWith load ops s).2).modules = some id := by
  intro ops
  induction ops with
  | nil => intro s hmem; exact hmem
  | cons op rest ih =>
    intro s hmem
    cases op with
    | effect t =>
      exact ih { s with trace := s.trace ++ ["eff:" ++ t] } hmem
    | importM q =>
      cases hres : load q s with
      | mk oid s1 =>
        have h1 : lookupModule p s1.modules = some id := by
          have h2 := hl q s hmem
          rw [hres] at h2
          exact h2
        simp only [runBodyWith, hres]
        cases oid with
        | none => exact h1
        | some j => exact ih s1 h1

/-- Helper: a cached module makes `loadModule` return immediately with
the cached identity and an unchanged state (`vm.c:1554`). -/
theorem loadModule_cache_hit (env : ModuleEnv) (fuel : Nat) (p : String)
    (s : LoaderState) (id : Nat) (h : lookupModule p s.modules = some id) :
    loadModule env (fuel + 1) p s = (some id, s) := by
  simp only [loadModule, h]

/-- Helper: a successful `loadModule` leaves the module in the cache
(`tableSet(&vm.modules, ...)`, `vm.c:1654`). -/
theorem loadModule_caches (env : ModuleEnv) :
    ∀ (fuel : Nat) (p : String) (s : LoaderState) (id : Nat)
      (s' : LoaderState),
      loadModule env fuel p s = (some id, s') →
      lookupModule p s'.modules = some id := by
  intro fuel p s id s' h
  match fuel with
  | 0 => simp [loadModule] at h
  | fuel + 1 =>
    simp only [loadModule] at h
    split at h
    · rename_i j heq
      injection h with h1 h2
      injection h1 with h3
      subst h3
      subst h2
      exact heq
    · rename_i heq0
      split at h
      · injection h with h1 h2
        exact Option.noConfusion h1
      · injection h with h1 h2
        exact Option.noConfusion h1
      · injection h with h1 h2
        exact Option.noConfusion h1
      · injection h with h1 h2
        exact Option.noConfusion h1
      · rename_i body hf
        split at h
        · injection h with h1 h2
          exact Option.noConfusion h1
        · split at h
          · injection h with h1 h2
            exact Option.noConfusion h1
          · rename_i s2 heqr
            injection h with h1 h2
            injection h1 with h3
            subst h2
            simp [lookupModule, h3]

/-- Helper: nothing in the loader ever removes a module-cache entry —
once `p` maps to `id`, it still does after loading any other module. -/
theorem loadModule_preserves_cache (env : ModuleEnv) (p : String)
    (id : Nat) :
    ∀ (fuel : Nat) (q : String) (s : LoaderState),
      lookupModule p s.modules = some id →
      lookupModule p ((loadModule env fuel q s).2).modules = some id := by
  intro fuel
  induction fuel with
  | zero => intro q s hmem; exact hmem
  | succ f ih =>
    intro q s hmem
    simp only [loadModule]
    split
    · exact hmem
    · rename_i hc
      split
      · exact hmem
      · exact hmem
      · exact hmem
      · exact hmem
      · rename_i body hf
        split
        · exact hmem
        · have hq : ¬ q = p := by
            intro hqp
            rw [hqp, hmem] at hc
            exact Option.noConfusion hc
          have h2 := runBodyWith_cache p id (loadModule env f) ih body
            (bodyEntryState q s) hmem
          split
          · rename_i s2 heqr
            rw [heqr] at h2
            exact h2
          · rename_i s2 heqr
            rw [heqr] at h2
            simp only [lookupModule]
            rw [if_neg hq]
            exact h2

/-- C2: a successful load of `p` stores the module in the VM's module
table; any later import of `p` (both `OP_IMPORT` and `OP_IMPORT_FROM`
enter through `loadModule`) returns the cached module with the state —
and hence the side-effect trace — unchanged, so the body never runs a
second time; and the cache entry survives the loading of any other
module, after which importing `p` is still a state-preserving cache
hit. -/
theorem c2_module_cache_idempotent (env : ModuleEnv) (fuel : Nat)
    (p : String) (s : LoaderState) (id : Nat) (s' : LoaderState)
    (h : loadModule env fuel p s = (some id, s')) :
    lookupModule p s'.modules = some id
  ∧ (∀ fuel2, loadModule env (fuel2 + 1) p s' = (some id, s'))
  ∧ (∀ q fuel2 fuel3,
      loadModule env (fuel3 + 1) p ((loadModule env fuel2 q s').2) =
        (some id, (loadModule env fuel2 q s').2)) := by
  have hb := loadModule_caches env fuel p s id s' h
  refine ⟨hb, fun fuel2 => loadModule_cache_hit env fuel2 p s' id hb,
    fun q fuel2 fuel3 => ?_⟩
  have hc := loadModule_preserves_cache env p id fuel2 q s' hb
  exact loadModule_cache_hit env fuel3 p _ id hc

/-- Witness for `c2_module_cache_idempotent`: loading `"m"` from `envW`
succeeds and caches module `0`. -/
theorem c2_module_cache_idempotent_witness :
    lookupModule "m" c2s.modules = some 0 :=
  (c2_module_cache_idempotent envW 2 "m" initLoader 0 c2s (by decide)).1

/-- Helper: body execution only adds loader-known error messages, given
that the loader it re-enters does. -/
theorem runBodyWith_errors
    (load : String → LoaderState → Option Nat × LoaderState)
    (hl : ∀ q s e, e ∈ ((load q s).2).errors →
      e ∈ s.errors ∨ loaderErrorAllowed e) :
    ∀ ops s e, e ∈ ((runBodyWith load ops s).2).errors →
      e ∈ s.errors ∨ loaderErrorAllowed e := by
  intro ops
  induction ops with
  | nil => intro s e h; exact Or.inl h
  | cons op rest ih =>
    intro s e h
    cases op with
    | effect t =>
      exact ih { s with trace := s.trace ++ ["eff:" ++ t] } e h
    | importM q =>
      cases hres : load q s with
      | mk oid s1 =>
        have hup : ∀ e2, e2 ∈ s1.errors →
            e2 ∈ s.errors ∨ loaderErrorAllowed e2 := by
          intro e2 h2
          exact hl q s e2 (by rw [hres]; exact h2)
        simp only [runBodyWith, hres] at h
        cases oid with
        | none =>
          rcases List.mem_append.mp h with h1 | h2
          · exact hup e h1
          · have h3 : e = failMsg q := by simpa using h2
            exact Or.inr (Or.inr (Or.inr (Or.inr (Or.inr (Or.inl ⟨q, h3⟩)))))
        | some j =>
          rcases ih s1 e h with h1 | h2
          · exact hup e h1
          · exact Or.inr h2

/-- C3 (amended): `loadModule` performs no circular-import detection —
there is no in-progress load stack, and the only error messages the
loader can ever post are its four read-and-compile failures (file open,
out of memory, short read, compile), failed-import errors and
`"Stack overflow."`; a cyclic import re-executes the module bodies until
the `FRAMES_MAX` limit aborts the load (see `c3_counterexample`), rather
than failing with a circular-import error. -/
theorem c3_loader_errors (env : ModuleEnv) :
    ∀ (fuel : Nat) (p : String) (s : LoaderState) (e : String),
      e ∈ ((loadModule env fuel p s).2).errors →
      e ∈ s.errors ∨ loaderErrorAllowed e := by
  intro fuel
  induction fuel with
  | zero => intro p s e h; exact Or.inl h
  | succ f ih =>
    intro p s e h
    simp only [loadModule] at h
    split at h
    · exact Or.inl h
    · split at h
      · rcases List.mem_append.mp h with h1 | h2
        · exact Or.inl h1
        · exact Or.inr (Or.inl ⟨p, by simpa using h2⟩)
      · rcases List.mem_append.mp h with h1 | h2
        · exact Or.inl h1
        · exact Or.inr (Or.inr (Or.inl ⟨p, by simpa using h2⟩))
      · rcases List.mem_append.mp h with h1 | h2
        · exact Or.inl h1
        · exact Or.inr (Or.inr (Or.inr (Or.inl ⟨p, by simpa using h2⟩)))
      · rcases List.mem_append.mp h with h1 | h2
        · exact Or.inl h1
        · exact Or.inr (Or.inr (Or.inr (Or.inr (Or.inl ⟨p, by simpa using h2⟩))))
      · rename_i body hf
        split at h
        · rcases List.mem_append.mp h with h1 | h2
          · exact Or.inl h1
          · exact Or.inr (Or.inr (Or.inr (Or.inr (Or.inr
              (Or.inr (by simpa using h2))))))
        · split at h
          · rename_i s2 heqr
            have h2 := runBodyWith_errors (loadModule env f)
              (fun q2 t2 e2 he => ih q2 t2 e2 he) body
              (bodyEntryState p s) e (by rw [heqr]; exact h)
            exact h2
          · rename_i s2 heqr
            have h2 := runBodyWith_errors (loadModule env f)
              (fun q2 t2 e2 he => ih q2 t2 e2 he) body
              (bodyEntryState p s) e (by rw [heqr]; exact h)
            exact h2

/-- Witness for `c3_loader_errors`: the error of a failed load of an
absent module is one of the loader's known messages. -/
theorem c3_loader_errors_witness :
    openMsg "zz" ∈ initLoader.errors ∨ loaderErrorAllowed (openMsg "zz") :=
  c3_loader_errors envNoFs 1 "zz" initLoader (openMsg "zz") (by decide)

/-- C3 counterexample: on the two-module cycle `a ↔ b`, the import of `a`
re-executes the body of `a` thirty-two times — there is no in-progress
load stack stopping the recursion — and finally fails via the
`FRAMES_MAX` stack-overflow error, not a circular-import error. -/
theorem c3_counterexample :
    (loadModule cycEnv 100 "a" initLoader).1 = none
  ∧ ((loadModule cycEnv 100 "a" initLoader).2).trace.count "run:a" = 32
  ∧ ((loadModule cycEnv 100 "a" initLoader).2).errors.count
      "Stack overflow." = 1 := by
  refine ⟨by decide, by decide, by decide⟩

/-- Helper: `runBodyWith` only depends on the loader function it is
given pointwise. -/
theorem runBodyWith_congr
    (l1 l2 : String → LoaderState → Option Nat × LoaderState)
    (h : ∀ q s, l1 q s = l2 q s) :
    ∀ ops s, runBodyWith l1 ops s = runBodyWith l2 ops s := by
  intro ops
  induction ops with
  | nil => intro s; rfl
  | cons op rest ih =>
    intro s
    cases op with
    | effect t => simp only [runBodyWith]; exact ih _
    | importM q =>
      simp only [runBodyWith]
      rw [h q s]
      cases l2 q s with
      | mk oid s1 =>
        cases oid with
        | none => rfl
        | some j => exact ih s1

/-- Helper: `loadModule` never reads the embedded stdlib table —
replacing it by an empty table changes nothing. -/
theorem loadModule_embedded_irrelevant (env : ModuleEnv) :
    ∀ (fuel : Nat) (p : String) (s : LoaderState),
      loadModule env fuel p s =
        loadModule { fs := env.fs, embedded := fun _ => none } fuel p s := by
  intro fuel
  induction fuel with
  | zero => intro p s; rfl
  | succ f ih =>
    intro p s
    cases hc : lookupModule p s.modules with
    | some j => simp only [loadModule, hc]
    | none =>
      cases hf : env.fs p with
      | openFail => simp only [loadModule, hc, hf]
      | memFail => simp only [loadModule, hc, hf]
      | readFail => simp only [loadModule, hc, hf]
      | compileFail => simp only [loadModule, hc, hf]
      | compiled body =>
        simp only [loadModule, hc, hf]
        split
        · rfl
        · rw [runBodyWith_congr (loadModule env f)
            (loadModule { fs := env.fs, embedded := fun _ => none } f)
            (fun q s2 => ih q s2) body]

/-- C4 (amended): for an uncached path, `loadModule` only tries the
filesystem (`p ++ ".cmel"`); the embedded stdlib table is never
consulted — the loader behaves identically with the embedded table
emptied out — and when the file cannot be opened the import fails at
once with the file-open error, even if the path is present in the
embedded table. -/
theorem c4_filesystem_only (env : ModuleEnv) (fuel : Nat) (p : String)
    (s : LoaderState) :
    loadModule env fuel p s =
      loadModule { fs := env.fs, embedded := fun _ => none } fuel p s
  ∧ (lookupModule p s.modules = none → env.fs p = ReadResult.openFail →
      loadModule env (fuel + 1) p s =
        (none, { s with errors := s.errors ++ [openMsg p] })) := by
  refine ⟨loadModule_embedded_irrelevant env fuel p s, fun h1 h2 => ?_⟩
  simp only [loadModule, h1, h2]

/-- Witness for `c4_filesystem_only`: loading `"sl"` in `envEmb` (not on
the filesystem) fails with the open error. -/
theorem c4_filesystem_only_witness :
    loadModule envEmb 1 "sl" initLoader =
      (none,
        { initLoader with errors := initLoader.errors ++ [openMsg "sl"] }) :=
  (c4_filesystem_only envEmb 0 "sl" initLoader).2 rfl rfl

/-- C4 counterexample: module `sl` is present in the embedded stdlib
table of `envEmb` but not on the filesystem, yet the import fails with
the file-open error — the claimed embedded-table fallback does not
exist. -/
theorem c4_counterexample :
    envEmb.embedded "sl" = some []
  ∧ (loadModule envEmb 1 "sl" initLoader).1 = none
  ∧ ((loadModule envEmb 1 "sl" initLoader).2).errors = [openMsg "sl"] := by
  refine ⟨rfl, rfl, rfl⟩
